import Mathlib

/-!
Verification development for the nature-quest challenge verification
pipeline (`challengeverification/services.py`, `challengeverification/views.py`)
and the progress ledger (`apps/progress/services.py`).

Modelling conventions:
* Python floats are modelled as exact rationals (`ℚ`); all constants of the
  source (`0.6`, `0.7`, `0.3`, `0.4`, ...) appear as the corresponding
  rational literals.
* A Python expression that can raise (`ZeroDivisionError`) is modelled as an
  `Option`/`Except` value; `none`/`error` is the exception, and the
  enclosing `try`/`except` handlers of the source appear as `Option.getD` /
  explicit `match`.
* Django model rows become Lean structures; the database becomes explicit
  lists threaded through the functions.
-/

namespace NatureQuest

/-- Python division `a / b` on floats: raises `ZeroDivisionError` when
`b = 0`, modelled as `none`. -/
def pydiv (a b : ℚ) : Option ℚ :=
  if b = 0 then none else some (a / b)

/-! ## Challenge catalog (challengeverification/models.py, `Challenge`) -/

/-- Challenge catalog entry: the fields the pipeline reads.
`verification_radius` is an `IntegerField` (meters, default 500);
`points_reward` a non-negative `IntegerField`. -/
structure Challenge where
  verification_radius : ℤ
  points_reward : ℤ
deriving DecidableEq

/-! ## PhotoVerificationService (services.py lines 23-309) -/

/-- Threshold `self.quality_threshold = 0.6` of `PhotoVerificationService`. -/
def quality_threshold : ℚ := 3/5

/-- Threshold `self.authenticity_threshold = 0.7` of `PhotoVerificationService`. -/
def authenticity_threshold : ℚ := 7/10

/-- `_validate_timestamp`: the photo is valid when taken within the last 24
hours (`time_diff <= timedelta(hours=24)`); the age is given in hours. -/
def validate_timestamp (age_hours : ℚ) : Bool :=
  decide (age_hours ≤ 24)

/-- Inputs of `analyze_photo` that feed its `verification_passed` verdict:
the computed quality and authenticity scores, the EXIF timestamp age (none
when the photo has no EXIF timestamp, in which case `timestamp_valid` keeps
its `False` default), and the required-elements check result. -/
structure PhotoInput where
  quality_score : ℚ
  authenticity_score : ℚ
  timestamp_age_hours : Option ℚ
  has_required_elements : Bool
deriving DecidableEq

/-- `analyze_photo` lines 67-72: `verification_passed` is the conjunction of
the quality gate, the authenticity gate, timestamp validity and the
required-elements check. -/
def photo_verification_passed (p : PhotoInput) : Bool :=
  decide (quality_threshold ≤ p.quality_score) &&
  decide (authenticity_threshold ≤ p.authenticity_score) &&
  (match p.timestamp_age_hours with
   | none => false
   | some a => validate_timestamp a) &&
  p.has_required_elements

/-! ## LocationVerificationService (services.py lines 312-485) -/

/-- Result of `_verify_with_foursquare` as consumed by `verify_location`:
whether the lookup succeeded, the reported distance of the closest place
(meters) and whether its categories matched the challenge's location type. -/
structure FoursquareResult where
  success : Bool
  distance : ℚ
  type_match : Bool
deriving DecidableEq

/-- The `verification_results` dict built by `verify_location`. -/
structure LocationResult where
  is_valid_coordinate : Bool
  location_type_match : Bool
  distance_to_target : Option ℚ
  confidence_score : ℚ
  verification_passed : Bool
  error : Bool
deriving DecidableEq

/-- `_validate_coordinates`: `(-90 <= latitude <= 90) and (-180 <= longitude <= 180)`. -/
def validate_coordinates (lat lon : ℚ) : Bool :=
  decide (-90 ≤ lat ∧ lat ≤ 90) && decide (-180 ≤ lon ∧ lon ≤ 180)

/-- `verify_location` (services.py lines 319-367).  When the coordinate is
invalid the early return leaves `verification_passed = False`.  When the
place lookup succeeded and `distance <= verification_radius`, confidence is
`1 - distance/radius`, then `min(base + 0.2, 1)` on a type match or
`base * 0.7` otherwise; `verification_passed = (distance <= radius) and
(confidence >= 0.6)`.  A division error (radius 0) is caught by the
enclosing `except`, leaving the default failing result. -/
def verify_location (lat lon : ℚ) (c : Challenge) (fsq : FoursquareResult) :
    LocationResult :=
  if ¬ (validate_coordinates lat lon = true) then
    { is_valid_coordinate := false, location_type_match := false,
      distance_to_target := none, confidence_score := 0,
      verification_passed := false, error := true }
  else if fsq.success then
    let d := fsq.distance
    let r : ℚ := (c.verification_radius : ℚ)
    if d ≤ r then
      match pydiv d r with
      | none =>
        { is_valid_coordinate := true, location_type_match := fsq.type_match,
          distance_to_target := some d, confidence_score := 0,
          verification_passed := false, error := true }
      | some q =>
        let base := 1 - q
        let conf :=
          if fsq.type_match then
            (if base + 1/5 ≤ 1 then base + 1/5 else 1)
          else base * (7/10)
        { is_valid_coordinate := true, location_type_match := fsq.type_match,
          distance_to_target := some d, confidence_score := conf,
          verification_passed := decide (d ≤ r) && decide ((3:ℚ)/5 ≤ conf),
          error := false }
    else
      { is_valid_coordinate := true, location_type_match := fsq.type_match,
        distance_to_target := some d, confidence_score := 0,
        verification_passed := decide (d ≤ r) && decide ((3:ℚ)/5 ≤ (0:ℚ)),
        error := false }
  else
    { is_valid_coordinate := true, location_type_match := false,
      distance_to_target := none, confidence_score := 0,
      verification_passed := false, error := false }

/-! ## FraudDetectionService (services.py lines 488-677) -/

/-- `_hash_similarity`: hashes of unequal length have similarity `0.0`;
otherwise the fraction of matching positions.  `matches / len(hash1)`
raises when both hashes are empty, hence the `pydiv`. -/
def hash_similarity (h1 h2 : String) : Option ℚ :=
  if h1.length ≠ h2.length then some 0
  else
    let nmatch := (h1.data.zip h2.data).countP (fun p => p.1 == p.2)
    pydiv (nmatch : ℚ) (h1.length : ℚ)

/-- `_calculate_image_hash`: average the (grayscale, downscaled) pixel
values and emit one bit per pixel; on any error (an empty pixel list makes
the average division raise) the `except` returns the empty string. -/
def calculate_image_hash (pixels : List ℚ) : String :=
  match pydiv pixels.sum (pixels.length : ℚ) with
  | none => ""
  | some avg => String.mk (pixels.map (fun px => if avg < px then '1' else '0'))

/-- Body of `_check_duplicate_image`: scan the hash cache in order and flag
a duplicate as soon as a similarity strictly above `0.9` is found; an
exception while computing a similarity (modelled `none`) aborts the scan and
is turned into `is_duplicate = False` by the function's `except` handler. -/
def check_duplicate_image (image_hash : String) (cache : List String) : Bool :=
  let body : Option Bool :=
    cache.foldl
      (fun acc h =>
        match acc with
        | none => none
        | some true => some true
        | some false =>
          match hash_similarity image_hash h with
          | none => none
          | some s => some (decide ((9:ℚ)/10 < s)))
      (some false)
  body.getD false

/-- `_check_rapid_submissions`: more than 5 submissions of the user within
the trailing one-hour window flag suspicious velocity. -/
def check_rapid_submissions (recent_count : ℕ) : Bool :=
  decide (5 < recent_count)

/-- Data of the user's immediately preceding attempt, as read by
`_check_location_plausibility`: the elapsed time to the current attempt in
seconds, and the great-circle distance between the two submitted
coordinates in kilometers (the value `_calculate_distance` returns). -/
structure TravelData where
  elapsed_seconds : ℚ
  distance_km : ℚ
deriving DecidableEq

/-- Impossible-travel part of `_check_location_plausibility`:
`time_diff = elapsed/3600` hours; `if time_diff > 0 and
distance / time_diff > 100` flags suspicious travel.  The Python `and`
short-circuits, so the division only happens under `time_diff > 0`. -/
def suspicious_travel (t : TravelData) : Option Bool :=
  let time_diff := t.elapsed_seconds / 3600
  if 0 < time_diff then
    match pydiv t.distance_km time_diff with
    | none => none
    | some speed => some (decide (100 < speed))
  else
    some false

/-- `_check_location_plausibility`: suspicious when the user has more than 3
prior attempts from the exact same coordinates or the travel check fires;
`last = none` when the user has no prior attempt.  Any exception in the body
is caught and reported as not suspicious. -/
def check_location_plausibility (same_location_count : ℕ)
    (last : Option TravelData) : Bool :=
  let body : Option Bool :=
    match last with
    | none => some (decide (3 < same_location_count) || false)
    | some t =>
      match suspicious_travel t with
      | none => none
      | some st => some (decide (3 < same_location_count) || st)
  body.getD false

/-- Inputs of `FraudDetectionService.analyze_submission`: the submitted
photo's perceptual hash, the hash cache, the user's submission count in the
trailing hour, the count of prior attempts from the same coordinates, and
the preceding attempt's travel data. -/
structure FraudInput where
  image_hash : String
  hash_cache : List String
  recent_count : ℕ
  same_location_count : ℕ
  last_travel : Option TravelData
deriving DecidableEq

/-- The dict returned by `analyze_submission`. -/
structure FraudResult where
  risk_level : String
  risk_score : ℚ
  risk_factors : List String
  requires_manual_review : Bool
  duplicate_image_detected : Bool
  suspicious_location : Bool
  rapid_submissions : Bool
deriving DecidableEq

/-- `analyze_submission` (services.py lines 494-536): run the three checks,
accumulate `risk_score` additively (`+0.4` duplicate, `+0.3` rapid,
`+0.3` implausible location), classify by the fixed threshold ladder and
set `requires_manual_review = risk_score >= 0.6`. -/
def analyze_submission (f : FraudInput) : FraudResult :=
  let dup := check_duplicate_image f.image_hash f.hash_cache
  let rapid := check_rapid_submissions f.recent_count
  let loc := check_location_plausibility f.same_location_count f.last_travel
  let score1 : ℚ := (0 : ℚ) + (if dup then 2/5 else 0)
  let score2 : ℚ := score1 + (if rapid then 3/10 else 0)
  let score : ℚ := score2 + (if loc then 3/10 else 0)
  let factors : List String :=
    (if dup then ["Duplicate image detected"] else []) ++
    (if rapid then ["Suspicious submission pattern"] else []) ++
    (if loc then ["Implausible location pattern"] else [])
  let level : String :=
    if (4:ℚ)/5 ≤ score then "critical"
    else if (3:ℚ)/5 ≤ score then "high"
    else if (3:ℚ)/10 ≤ score then "medium"
    else "low"
  { risk_level := level, risk_score := score, risk_factors := factors,
    requires_manual_review := decide ((3:ℚ)/5 ≤ score),
    duplicate_image_detected := dup, suspicious_location := loc,
    rapid_submissions := rapid }

/-! ## VerificationOrchestrator (views.py, `ChallengeAttemptViewSet`) -/

/-- The reward-relevant state of an attempt: the `points_earned` and
`bonus_points` fields of `ChallengeAttempt` (both default 0) and the list
of point amounts of the user's `PointsTransaction` rows. -/
structure RewardState where
  points_earned : ℤ
  bonus_points : ℤ
  pointsTransactions : List ℤ
deriving DecidableEq

/-- `_award_completion_rewards` (views.py lines 264-280): computes
`points_awarded = attempt.challenge.points_reward` and logs it; the call
into the userprogress app is commented out, so nothing else happens and
the state is returned unchanged. -/
def award_completion_rewards (c : Challenge) (s : RewardState) : RewardState :=
  let _points_awarded := c.points_reward
  s

/-- Result of `_process_verification`. -/
structure VerificationOutcome where
  status : String
  notes : String
  failed_reasons : List String
  reward : RewardState
deriving DecidableEq

/-- Status decision of `_process_verification` (views.py lines 211-233):
`verified` when photo and location passed and fraud needs no review
(awarding completion rewards), else `flagged` when fraud requires manual
review, else `failed` with the list of failed sub-checks. -/
def process_verification (photo_passed location_passed : Bool)
    (fraud : FraudResult) (c : Challenge) (s : RewardState) :
    VerificationOutcome :=
  let fraud_ok := ! fraud.requires_manual_review
  if photo_passed && location_passed && fraud_ok then
    { status := "verified", notes := "Challenge completed successfully!",
      failed_reasons := [], reward := award_completion_rewards c s }
  else if fraud.requires_manual_review then
    { status := "flagged",
      notes := "Flagged for manual review: " ++
        String.intercalate ", " fraud.risk_factors,
      failed_reasons := [], reward := s }
  else
    let failed_reasons : List String :=
      (if !photo_passed then ["Photo verification failed"] else []) ++
      (if !location_passed then ["Location verification failed"] else [])
    { status := "failed",
      notes := "Verification failed: " ++
        String.intercalate ", " failed_reasons,
      failed_reasons := failed_reasons, reward := s }

/-- Full pipeline of `_process_verification`: analyze the photo, verify the
location, run fraud detection, then decide the status from the three
persisted verdicts. -/
def run_verification (p : PhotoInput) (lat lon : ℚ) (fsq : FoursquareResult)
    (f : FraudInput) (c : Challenge) (s : RewardState) : VerificationOutcome :=
  let photo := photo_verification_passed p
  let locr := verify_location lat lon c fsq
  let fraudr := analyze_submission f
  process_verification photo locr.verification_passed fraudr c s

/-! ## Progress ledger data model (userprogress/models.py, mirrored by
apps/progress) -/

/-- Badge catalog entry: `points_required` threshold and the `is_special`
flag of the gated Cat badge. -/
structure Badge where
  id : ℕ
  name : String
  points_required : ℤ
  is_special : Bool
deriving DecidableEq

/-- Level catalog entry. -/
structure Level where
  level_number : ℕ
  name : String
  points_required : ℤ
deriving DecidableEq

/-- `UserBadge` junction row. -/
structure UserBadge where
  user : ℕ
  badge_id : ℕ
  points_when_earned : ℤ
deriving DecidableEq

/-- Append-only `PointsTransaction` ledger row. -/
structure PointsTransaction where
  user : ℕ
  transaction_type : String
  points : ℤ
  description : String
  challenge_id : Option ℕ
  quiz_id : Option ℕ
deriving DecidableEq

/-- `UserProfile`: the per-user ledger head (field defaults 0 / null). -/
structure UserProfile where
  total_points : ℤ
  current_level : Option Level
  challenges_completed : ℕ
  quizzes_completed : ℕ
deriving DecidableEq

/-- Profile created by `get_or_create` for a user without one. -/
def newProfile : UserProfile :=
  { total_points := 0, current_level := none, challenges_completed := 0,
    quizzes_completed := 0 }

/-- The database state the progress service reads and writes: existing user
ids, profiles keyed by user id, badge/transaction rows and the two static
catalogs. -/
structure DB where
  users : List ℕ
  profiles : List (ℕ × UserProfile)
  user_badges : List UserBadge
  transactions : List PointsTransaction
  badges : List Badge
  levels : List Level
deriving DecidableEq

/-- Badge ids owned by a user in a badge-row list
(`user.badges.values_list("badge_id")`). -/
def ownedIds (ubs : List UserBadge) (uid : ℕ) : List ℕ :=
  (ubs.filter (fun ub => ub.user == uid)).map (fun ub => ub.badge_id)

/-- Badge ids owned by a user. -/
def ownedBadgeIds (db : DB) (uid : ℕ) : List ℕ :=
  ownedIds db.user_badges uid

/-- Sum of the `points` of a user's transactions in a row list. -/
def txnSumList (l : List PointsTransaction) (uid : ℕ) : ℤ :=
  ((l.filter (fun t => t.user == uid)).map (fun t => t.points)).sum

/-- Sum of the `points` of all of a user's `PointsTransaction` rows. -/
def txnSum (db : DB) (uid : ℕ) : ℤ :=
  txnSumList db.transactions uid

/-- The user's stored `total_points` (0 when no profile row exists yet —
profiles are created lazily with `total_points = 0`). -/
def profileTotal (db : DB) (uid : ℕ) : ℤ :=
  match db.profiles.lookup uid with
  | some p => p.total_points
  | none => 0

/-- Write a profile row (insert or overwrite), modelling `profile.save()`. -/
def setProfile : List (ℕ × UserProfile) → ℕ → UserProfile →
    List (ℕ × UserProfile)
  | [], uid, p => [(uid, p)]
  | (k, q) :: rest, uid, p =>
    if k = uid then (k, p) :: rest else (k, q) :: setProfile rest uid p

/-- Save a profile into the database. -/
def saveProfile (db : DB) (uid : ℕ) (p : UserProfile) : DB :=
  { db with profiles := setProfile db.profiles uid p }

/-! ## ProgressService (apps/progress/services.py) -/

/-- Whether a badge id refers to a special badge in the catalog. -/
def badge_is_special (catalog : List Badge) (bid : ℕ) : Bool :=
  match catalog.find? (fun b => b.id == bid) with
  | some b => b.is_special
  | none => false

/-- `user.badges.filter(badge__is_special=False).count()`: the number of
regular (non-special) badges the user currently owns. -/
def regular_badge_count (db : DB) (uid : ℕ) : ℕ :=
  (db.user_badges.filter
    (fun ub => ub.user == uid && ! badge_is_special db.badges ub.badge_id)).length

/-- `_check_special_badge_eligibility`: all 12 regular badges owned, level
at least 10, at least 20 challenges completed. -/
def check_special_badge_eligibility (db : DB) (uid : ℕ)
    (profile : UserProfile) : Bool :=
  decide (12 ≤ regular_badge_count db uid) &&
  (match profile.current_level with
   | some l => decide (10 ≤ l.level_number)
   | none => false) &&
  decide (20 ≤ profile.challenges_completed)

/-- The `achievements` dict built by `_check_achievements`. -/
structure Achievements where
  new_badges : List ℕ
  new_level : Option ℕ
  bonus_points : ℤ
deriving DecidableEq

/-- State threaded through the badge sweep: the database (badge and
transaction rows are written immediately), the in-memory profile object and
the achievements accumulator. -/
structure SweepState where
  db : DB
  profile : UserProfile
  achievements : Achievements
deriving DecidableEq

/-- One iteration of the badge loop in `_check_achievements`: skip a
special badge whose extra eligibility fails; otherwise create the
`UserBadge` row (recording the sweep-entry total), add the fixed +50 bonus
to the in-memory profile and append the bonus transaction. -/
def award_badge_step (uid : ℕ) (current_points : ℤ) (st : SweepState)
    (b : Badge) : SweepState :=
  if b.is_special && ! check_special_badge_eligibility st.db uid st.profile
  then st
  else
    { db :=
        { st.db with
          user_badges := st.db.user_badges ++ [⟨uid, b.id, current_points⟩],
          transactions := st.db.transactions ++
            [⟨uid, "badge_earned", 50,
              "Bonus for earning " ++ b.name ++ " badge", none, none⟩] },
      profile :=
        { st.profile with
          total_points := st.profile.total_points + 50 },
      achievements :=
        { st.achievements with
          new_badges := st.achievements.new_badges ++ [b.id],
          bonus_points := st.achievements.bonus_points + 50 } }

/-- `Level.objects.filter(points_required__lte=total).order_by("-level_number").first()`:
the qualifying level with the highest level number. -/
def pick_new_level (levels : List Level) (total : ℤ) : Option Level :=
  (levels.filter (fun l => decide (l.points_required ≤ total))).foldl
    (fun acc l =>
      match acc with
      | none => some l
      | some m => if m.level_number < l.level_number then some l else some m)
    none

/-- Level-up part of `_check_achievements`: when the best qualifying level
is strictly above the current one (or there was none), set it, add the
`level_number * 100` bonus to the profile and append the bonus
transaction. -/
def apply_level_up (uid : ℕ) (st : SweepState) : SweepState :=
  match pick_new_level st.db.levels st.profile.total_points with
  | none => st
  | some nl =>
    if (match st.profile.current_level with
        | none => true
        | some ol => decide (ol.level_number < nl.level_number)) then
      let bonus : ℤ := (nl.level_number : ℤ) * 100
      { db :=
          { st.db with
            transactions := st.db.transactions ++
              [⟨uid, "level_up", bonus, "Level up bonus to " ++ nl.name,
                none, none⟩] },
        profile :=
          { st.profile with
            current_level := some nl,
            total_points := st.profile.total_points + bonus },
        achievements :=
          { st.achievements with
            new_level := some nl.level_number,
            bonus_points := st.achievements.bonus_points + bonus } }
    else st

/-- The queryset `Badge.objects.filter(points_required__lte=current_points)
.exclude(id__in=user.badges.values_list("badge_id"))
.order_by("points_required")`, evaluated once when the badge loop starts. -/
def badges_available (db : DB) (uid : ℕ) (current_points : ℤ) : List Badge :=
  List.insertionSort (fun b1 b2 => b1.points_required ≤ b2.points_required)
    (db.badges.filter
      (fun b => decide (b.points_required ≤ current_points) &&
        ! ((ownedBadgeIds db uid).contains b.id)))

/-- `_check_achievements` (apps/progress/services.py lines 78-157): one
pass over the badges whose threshold is at or below the total at entry and
that the user does not own yet, in ascending threshold order; then one
level-up check against the post-badge-bonus total; then `profile.save()`.
The `old_points` argument of the source is never read. -/
def check_achievements (db : DB) (uid : ℕ) (profile : UserProfile) :
    DB × UserProfile × Achievements :=
  let st2 :=
    apply_level_up uid
      ((badges_available db uid profile.total_points).foldl
        (award_badge_step uid profile.total_points) ⟨db, profile, ⟨[], none, 0⟩⟩)
  (saveProfile st2.db uid st2.profile, st2.profile, st2.achievements)

/-- Point in `update_user_progress` at which an injected unexpected error
(database failure, etc.) is raised, to model the rollback contract of
`transaction.atomic()`. -/
inductive FaultSite
  | afterProfileSave
  | afterTransaction
  | afterAchievements
deriving DecidableEq

/-- Arguments of one `update_user_progress` call, plus an optional injected
fault modelling an unexpected exception during the update. -/
structure UpdateParams where
  user_id : ℕ
  points_to_add : ℤ
  transaction_type : String
  description : String
  challenge_id : Option ℕ
  quiz_id : Option ℕ
  increment_challenges : Bool
  increment_quizzes : Bool
  fault : Option FaultSite
deriving DecidableEq

/-- Exceptions escaping the `transaction.atomic()` block. -/
inductive UpdateError
  | userNotFound
  | dbError
deriving DecidableEq

/-- The dict returned by `update_user_progress`. -/
structure UpdateResult where
  success : Bool
  error : Option String
  new_total_points : Option ℤ
deriving DecidableEq

/-- Raise the injected fault when the update has reached its site. -/
def raiseAt (site : FaultSite) (fault : Option FaultSite) :
    Except UpdateError Unit :=
  if fault = some site then Except.error UpdateError.dbError
  else Except.ok ()

/-- Body of `update_user_progress` inside `transaction.atomic()`:
`User.objects.get` (raising `DoesNotExist` for an unknown id),
`get_or_create` of the profile, the point addition and counter increments,
`profile.save()`, the transaction row, then `_check_achievements`. -/
def update_body (db : DB) (p : UpdateParams) :
    Except UpdateError (DB × UserProfile × Achievements) :=
  if (db.users.contains p.user_id) = false then
    Except.error UpdateError.userNotFound
  else
    let profile0 := (db.profiles.lookup p.user_id).getD newProfile
    let profile1 := { profile0 with
      total_points := profile0.total_points + p.points_to_add }
    let profile2 :=
      if p.increment_challenges then
        { profile1 with
          challenges_completed := profile1.challenges_completed + 1 }
      else profile1
    let profile3 :=
      if p.increment_quizzes then
        { profile2 with quizzes_completed := profile2.quizzes_completed + 1 }
      else profile2
    let db1 := saveProfile db p.user_id profile3
    match raiseAt FaultSite.afterProfileSave p.fault with
    | Except.error e => Except.error e
    | Except.ok _ =>
      let db2 := { db1 with transactions := db1.transactions ++
        [⟨p.user_id, p.transaction_type, p.points_to_add, p.description,
          p.challenge_id, p.quiz_id⟩] }
      match raiseAt FaultSite.afterTransaction p.fault with
      | Except.error e => Except.error e
      | Except.ok _ =>
        let res := check_achievements db2 p.user_id profile3
        match raiseAt FaultSite.afterAchievements p.fault with
        | Except.error e => Except.error e
        | Except.ok _ => Except.ok res

/-- `update_user_progress` (apps/progress/services.py lines 14-76): run
the body atomically; `User.DoesNotExist` is reported as the structured
"User not found" failure, any other exception rolls the whole update back
and is reported as a structured failure. -/
def update_user_progress (db : DB) (p : UpdateParams) : DB × UpdateResult :=
  match update_body db p with
  | Except.ok (db2, profile, _ach) =>
    (db2, { success := true, error := none,
            new_total_points := some profile.total_points })
  | Except.error UpdateError.userNotFound =>
    (db, { success := false, error := some "User not found",
           new_total_points := none })
  | Except.error UpdateError.dbError =>
    (db, { success := false, error := some "database error",
           new_total_points := none })

/-- Run a sequence of progress updates. -/
def run_ops (db : DB) (ops : List UpdateParams) : DB :=
  ops.foldl (fun d p => (update_user_progress d p).1) db

/-- Ledger conservation invariant: every user's stored total equals the sum
of their transactions. -/
def conserved (db : DB) : Prop :=
  ∀ uid : ℕ, profileTotal db uid = txnSum db uid

/-- Database at system start: users and the static catalogs exist, no
profiles, badges-owned or transactions yet. -/
def initialDB (users : List ℕ) (badges : List Badge) (levels : List Level) :
    DB :=
  { users := users, profiles := [], user_badges := [], transactions := [],
    badges := badges, levels := levels }

/-- Concrete database exercising the bonus cascade: user 1 has 10 points,
the catalog has badges at 250 and 300 points and no levels. -/
def cascadeDB : DB :=
  { users := [1], profiles := [(1, ⟨10, none, 0, 0⟩)], user_badges := [],
    transactions := [⟨1, "special_event", 10, "seed", none, none⟩],
    badges := [⟨1, "Rat", 250, false⟩, ⟨2, "Ox", 300, false⟩], levels := [] }

/-- Progress update granting 250 points to user 1. -/
def cascadeParams : UpdateParams :=
  { user_id := 1, points_to_add := 250,
    transaction_type := "challenge_completion", description := "challenge",
    challenge_id := some 1, quiz_id := none, increment_challenges := true,
    increment_quizzes := false, fault := none }

/-! ## Claims about the verification services -/

/-- C2, counterexample: a submission whose reported distance is exactly the
challenge's 500 m verification radius does NOT pass location verification,
contrary to the claim: the distance gate holds but the confidence score is
only `0.2 < 0.6`. -/
theorem C2_boundary_counterexample :
    (verify_location 0 0 ⟨500, 100⟩ ⟨true, 500, true⟩).distance_to_target
        = some 500 ∧
    (verify_location 0 0 ⟨500, 100⟩ ⟨true, 500, true⟩).confidence_score
        = 1/5 ∧
    (verify_location 0 0 ⟨500, 100⟩ ⟨true, 500, true⟩).verification_passed
        = false := by
  refine ⟨?_, ?_, ?_⟩ <;>
    norm_num [verify_location, validate_coordinates, pydiv]

/-- C2, amended: the distance comparison itself is boundary-inclusive
(`distance ≤ radius`), and any distance strictly beyond the radius fails;
but a submission exactly at the radius still fails overall location
verification, because its confidence score is at most `0.2`, below the
`0.6` minimum-confidence threshold. -/
theorem C2_boundary_amended (lat lon : ℚ) (c : Challenge)
    (fsq : FoursquareResult) (h1 : validate_coordinates lat lon = true)
    (h2 : fsq.success = true) (h3 : 0 < c.verification_radius) :
    (fsq.distance = (c.verification_radius : ℚ) →
      fsq.distance ≤ (c.verification_radius : ℚ) ∧
      (verify_location lat lon c fsq).confidence_score ≤ 1/5 ∧
      (verify_location lat lon c fsq).verification_passed = false) ∧
    ((c.verification_radius : ℚ) < fsq.distance →
      (verify_location lat lon c fsq).verification_passed = false) := by
  have hr0 : ((c.verification_radius : ℤ) : ℚ) ≠ 0 := by
    exact_mod_cast ne_of_gt h3
  constructor
  · intro hd
    have hgate : fsq.distance ≤ (c.verification_radius : ℚ) := le_of_eq hd
    have hq : fsq.distance / ((c.verification_radius : ℤ) : ℚ) = 1 := by
      rw [hd]; exact div_self hr0
    refine ⟨hgate, ?_, ?_⟩ <;>
    · simp only [verify_location, h1, h2, not_true_eq_false, if_false,
        if_true, hgate, if_pos, pydiv, hr0, hq]
      rcases fsq.type_match <;> norm_num
  · intro hgt
    have hgate : ¬ fsq.distance ≤ (c.verification_radius : ℚ) :=
      not_le.mpr hgt
    simp only [verify_location, h1, h2, not_true_eq_false, if_false,
      if_true, hgate]
    norm_num

/-- C2, witness for the amended theorem: at a 500 m radius, distance exactly
500 satisfies the inclusive distance gate yet fails verification, and
distance 501 fails verification. -/
theorem C2_boundary_amended_witness :
    ((500 : ℚ) ≤ ((500 : ℤ) : ℚ) ∧
      (verify_location 0 0 ⟨500, 100⟩ ⟨true, 500, true⟩).confidence_score
        ≤ 1/5 ∧
      (verify_location 0 0 ⟨500, 100⟩ ⟨true, 500, true⟩).verification_passed
        = false) ∧
    (verify_location 0 0 ⟨500, 100⟩ ⟨true, 501, true⟩).verification_passed
      = false :=
  ⟨(C2_boundary_amended 0 0 ⟨500, 100⟩ ⟨true, 500, true⟩ (by decide) rfl
      (by decide)).1 (by decide),
   (C2_boundary_amended 0 0 ⟨500, 100⟩ ⟨true, 501, true⟩ (by decide) rfl
      (by decide)).2 (by decide)⟩

/-- C6: the orchestrator's terminal-status decision follows the exact
precedence photo ∧ location ∧ ¬review → verified, else review → flagged,
else failed, with the failure notes listing exactly the sub-checks that
failed. -/
theorem C6_status_precedence (photo loc : Bool) (fr : FraudResult)
    (c : Challenge) (s : RewardState) :
    ((process_verification photo loc fr c s).status = "verified" ↔
       photo = true ∧ loc = true ∧ fr.requires_manual_review = false) ∧
    ((process_verification photo loc fr c s).status = "flagged" ↔
       fr.requires_manual_review = true) ∧
    ((process_verification photo loc fr c s).status = "failed" ↔
       fr.requires_manual_review = false ∧ (photo = false ∨ loc = false)) ∧
    ((process_verification photo loc fr c s).status = "failed" →
       (process_verification photo loc fr c s).notes =
         "Verification failed: " ++ String.intercalate ", "
           (process_verification photo loc fr c s).failed_reasons) ∧
    ("Photo verification failed" ∈
        (process_verification photo loc fr c s).failed_reasons ↔
       (process_verification photo loc fr c s).status = "failed" ∧
         photo = false) ∧
    ("Location verification failed" ∈
        (process_verification photo loc fr c s).failed_reasons ↔
       (process_verification photo loc fr c s).status = "failed" ∧
         loc = false) := by
  cases photo <;> cases loc <;>
    rcases hrev : fr.requires_manual_review <;>
      simp [process_verification, hrev, award_completion_rewards]

/-- C6, witness: with a failing photo, a passing location and no fraud
review, the status is `failed` and the reasons list contains exactly the
photo failure. -/
theorem C6_status_precedence_witness :
    (process_verification false true ⟨"low", 0, [], false, false, false,
        false⟩ ⟨500, 100⟩ ⟨0, 0, []⟩).status = "failed" ∧
    "Photo verification failed" ∈
      (process_verification false true ⟨"low", 0, [], false, false, false,
        false⟩ ⟨500, 100⟩ ⟨0, 0, []⟩).failed_reasons :=
  have h := C6_status_precedence false true
    ⟨"low", 0, [], false, false, false, false⟩ ⟨500, 100⟩ ⟨0, 0, []⟩
  ⟨h.2.2.1.mpr ⟨rfl, Or.inl rfl⟩,
   h.2.2.2.2.1.mpr ⟨h.2.2.1.mpr ⟨rfl, Or.inl rfl⟩, rfl⟩⟩

/-- C7: the fraud risk score is exactly the sum of the triggered weights
(+0.4 duplicate, +0.3 rapid, +0.3 implausible location), manual review is
required exactly when the score reaches 0.6, and a duplicate-plus-rapid
submission scores exactly 0.7 with risk level `high`. -/
theorem C7_fraud_additivity :
    (∀ f : FraudInput,
      (analyze_submission f).risk_score =
        (if (analyze_submission f).duplicate_image_detected then (2:ℚ)/5
          else 0) +
        (if (analyze_submission f).rapid_submissions then (3:ℚ)/10 else 0) +
        (if (analyze_submission f).suspicious_location then (3:ℚ)/10
          else 0) ∧
      (analyze_submission f).requires_manual_review =
        decide ((3:ℚ)/5 ≤ (analyze_submission f).risk_score)) ∧
    ((analyze_submission ⟨"11", ["11"], 6, 0, none⟩).duplicate_image_detected
        = true ∧
      (analyze_submission ⟨"11", ["11"], 6, 0, none⟩).rapid_submissions
        = true ∧
      (analyze_submission ⟨"11", ["11"], 6, 0, none⟩).suspicious_location
        = false ∧
      (analyze_submission ⟨"11", ["11"], 6, 0, none⟩).risk_score = 7/10 ∧
      (analyze_submission ⟨"11", ["11"], 6, 0, none⟩).risk_level = "high" ∧
      (analyze_submission ⟨"11", ["11"], 6, 0, none⟩).requires_manual_review
        = true) := by
  constructor
  · intro f
    simp only [analyze_submission]
    norm_num
  · have hlen : "11".length = 2 := rfl
    have hdup : check_duplicate_image "11" ["11"] = true := by
      norm_num [check_duplicate_image, hash_similarity, pydiv, hlen]
    refine ⟨?_, ?_, ?_, ?_, ?_, ?_⟩ <;>
      norm_num [analyze_submission, hdup, check_rapid_submissions,
        check_location_plausibility]

/-- C9: the impossible-travel division is guarded by the short-circuiting
`time_diff > 0` test — it never raises for any input, and a preceding
attempt with zero elapsed time never flags suspicious travel, whatever the
distance between the two coordinates. -/
theorem C9_zero_elapsed_travel_guard :
    (∀ t : TravelData, (suspicious_travel t).isSome = true) ∧
    (∀ dist : ℚ, suspicious_travel ⟨0, dist⟩ = some false) ∧
    (∀ (n : ℕ) (dist : ℚ),
      check_location_plausibility n (some ⟨0, dist⟩) = decide (3 < n)) := by
  have hz : ∀ dist : ℚ, suspicious_travel ⟨0, dist⟩ = some false := by
    intro dist
    simp [suspicious_travel]
  refine ⟨?_, hz, ?_⟩
  · intro t
    simp only [suspicious_travel, pydiv]
    split
    · rename_i hpos
      rw [if_neg (by intro h0; rw [h0] at hpos; exact lt_irrefl 0 hpos)]
      rfl
    · rfl
  · intro n dist
    simp [check_location_plausibility, hz]

/-- C10: perceptual hashes of unequal length have similarity exactly 0, a
failed hash computation yields the empty string, and an empty hash is never
flagged as a duplicate against a cache of 64-bit hashes (similarity 0 never
exceeds the 0.9 threshold). -/
theorem C10_empty_hash_never_duplicate (h1 h2 : String)
    (hne : h1.length ≠ h2.length) (cache : List String)
    (hc : ∀ h ∈ cache, h.length = 64) :
    hash_similarity h1 h2 = some 0 ∧
    calculate_image_hash [] = "" ∧
    check_duplicate_image "" cache = false := by
  refine ⟨by simp [hash_similarity, hne], rfl, ?_⟩
  have key : ∀ l : List String, (∀ h ∈ l, h.length = 64) →
      l.foldl
        (fun acc h =>
          match acc with
          | none => none
          | some true => some true
          | some false =>
            match hash_similarity "" h with
            | none => none
            | some s => some (decide ((9:ℚ)/10 < s)))
        (some false) = some false := by
    intro l
    induction l with
    | nil => intro _; rfl
    | cons hd tl ih =>
      intro hmem
      have hhd : hash_similarity "" hd = some 0 := by
        have hl : ("" : String).length ≠ hd.length := by
          rw [hmem hd (List.mem_cons_self hd tl)]
          decide
        simp only [hash_similarity]
        rw [if_pos hl]
      have hstep : (decide ((9:ℚ)/10 < 0)) = false := by norm_num
      simp only [List.foldl_cons, hhd, hstep]
      exact ih (fun x hx => hmem x (List.mem_cons_of_mem hd hx))
  simp only [check_duplicate_image, key cache hc, Option.getD_some]

/-- C10, witness: the empty hash against a cached 64-bit hash. -/
theorem C10_empty_hash_never_duplicate_witness :
    hash_similarity ""
        "0000000000000000000000000000000000000000000000000000000000000000"
      = some 0 ∧
    calculate_image_hash [] = "" ∧
    check_duplicate_image ""
        ["0000000000000000000000000000000000000000000000000000000000000000"]
      = false :=
  C10_empty_hash_never_duplicate ""
    "0000000000000000000000000000000000000000000000000000000000000000"
    (by decide)
    ["0000000000000000000000000000000000000000000000000000000000000000"]
    (by decide)

/-- C5, counterexample: an attempt by a user with exactly 6 submissions in
the trailing hour and no other fraud signal is NOT flagged: the rapid
check fires, but the risk score is only 0.3 < 0.6, so no manual review is
required, and with photo and location passing the orchestrator sets the
status `verified`, contrary to the claim. -/
theorem C5_rapid_counterexample :
    (analyze_submission ⟨"", [], 6, 0, none⟩).rapid_submissions = true ∧
    (analyze_submission ⟨"", [], 6, 0, none⟩).requires_manual_review
      = false ∧
    (run_verification ⟨4/5, 9/10, some 1, true⟩ 0 0 ⟨true, 50, true⟩
        ⟨"", [], 6, 0, none⟩ ⟨500, 100⟩ ⟨0, 0, []⟩).status = "verified" := by
  have hfraud :
      (analyze_submission ⟨"", [], 6, 0, none⟩).requires_manual_review
        = false := by
    norm_num [analyze_submission, check_duplicate_image,
      check_rapid_submissions, check_location_plausibility]
  refine ⟨rfl, hfraud, ?_⟩
  have hloc :
      (verify_location 0 0 ⟨500, 100⟩ ⟨true, 50, true⟩).verification_passed
        = true := by
    norm_num [verify_location, validate_coordinates, pydiv]
  have hphoto :
      photo_verification_passed ⟨4/5, 9/10, some 1, true⟩ = true := by
    norm_num [photo_verification_passed, validate_timestamp,
      quality_threshold, authenticity_threshold]
  simp [run_verification, hloc, hphoto, hfraud, process_verification,
    award_completion_rewards]

/-- C5, amended: six submissions in the trailing hour make the rapid check
suspicious and contribute +0.3 to the risk score, but on their own they do
not reach the 0.6 manual-review threshold: `requires_manual_review` stays
false, and with photo and location passing the orchestrator sets
`verified`; flagging additionally requires another triggered fraud check. -/
theorem C5_rapid_amended (f : FraudInput) (h6 : f.recent_count = 6)
    (hd : check_duplicate_image f.image_hash f.hash_cache = false)
    (hl : check_location_plausibility f.same_location_count f.last_travel
      = false) :
    (analyze_submission f).rapid_submissions = true ∧
    (analyze_submission f).risk_score = 3/10 ∧
    (analyze_submission f).requires_manual_review = false ∧
    ∀ (c : Challenge) (s : RewardState),
      (process_verification true true (analyze_submission f) c s).status
        = "verified" := by
  have hrapid : check_rapid_submissions f.recent_count = true := by
    rw [h6]; decide
  have hrev : (analyze_submission f).requires_manual_review = false := by
    norm_num [analyze_submission, hd, hl, hrapid]
  refine ⟨?_, ?_, hrev, ?_⟩
  · simp [analyze_submission, hrapid]
  · norm_num [analyze_submission, hd, hl, hrapid]
  · intro c s
    simp [process_verification, hrev]

/-- C5, witness for the amended theorem: a concrete attempt with 6 recent
submissions, an empty hash cache and no prior location data. -/
theorem C5_rapid_amended_witness :
    (analyze_submission ⟨"x", [], 6, 1, none⟩).rapid_submissions = true ∧
    (analyze_submission ⟨"x", [], 6, 1, none⟩).risk_score = 3/10 ∧
    (analyze_submission ⟨"x", [], 6, 1, none⟩).requires_manual_review
      = false ∧
    (process_verification true true (analyze_submission ⟨"x", [], 6, 1,
      none⟩) ⟨500, 100⟩ ⟨0, 0, []⟩).status = "verified" :=
  have h := C5_rapid_amended ⟨"x", [], 6, 1, none⟩ rfl rfl (by decide)
  ⟨h.1, h.2.1, h.2.2.1, h.2.2.2 ⟨500, 100⟩ ⟨0, 0, []⟩⟩

/-- C1: evaluating the pipeline at the claim's clean-success scenario
(photo quality 0.8 ≥ 0.6, authenticity 0.9 ≥ 0.7, timestamp 1h old,
required elements present, distance 50 m inside a 500 m radius, no fraud
signals) yields status `verified` — but `points_earned` stays 0 (not the
challenge's 100-point reward) and no points transaction is created,
because `_award_completion_rewards` only logs the award. -/
theorem C1_clean_success_no_reward_issued :
    (run_verification ⟨4/5, 9/10, some 1, true⟩ 0 0 ⟨true, 50, true⟩
        ⟨"", [], 0, 0, none⟩ ⟨500, 100⟩ ⟨0, 0, []⟩).status = "verified" ∧
    (run_verification ⟨4/5, 9/10, some 1, true⟩ 0 0 ⟨true, 50, true⟩
        ⟨"", [], 0, 0, none⟩ ⟨500, 100⟩ ⟨0, 0, []⟩).reward.points_earned
      = 0 ∧
    (run_verification ⟨4/5, 9/10, some 1, true⟩ 0 0 ⟨true, 50, true⟩
        ⟨"", [], 0, 0, none⟩ ⟨500, 100⟩ ⟨0, 0,
          []⟩).reward.pointsTransactions = [] := by
  have hfraud :
      (analyze_submission ⟨"", [], 0, 0, none⟩).requires_manual_review
        = false := by
    norm_num [analyze_submission, check_duplicate_image,
      check_rapid_submissions, check_location_plausibility]
  have hloc :
      (verify_location 0 0 ⟨500, 100⟩ ⟨true, 50, true⟩).verification_passed
        = true := by
    norm_num [verify_location, validate_coordinates, pydiv]
  have hphoto :
      photo_verification_passed ⟨4/5, 9/10, some 1, true⟩ = true := by
    norm_num [photo_verification_passed, validate_timestamp,
      quality_threshold, authenticity_threshold]
  refine ⟨?_, ?_, ?_⟩ <;>
    simp [run_verification, hloc, hphoto, hfraud, process_verification,
      award_completion_rewards]

/-! ## Ledger helper lemmas -/

theorem txnSumList_append (l1 l2 : List PointsTransaction) (uid : ℕ) :
    txnSumList (l1 ++ l2) uid = txnSumList l1 uid + txnSumList l2 uid := by
  simp [txnSumList, List.filter_append]

theorem txnSumList_single (t : PointsTransaction) (uid : ℕ) :
    txnSumList [t] uid = if (t.user == uid) = true then t.points else 0 := by
  rcases h : t.user == uid <;>
    simp [txnSumList, List.filter_singleton, h]

theorem lookup_setProfile_self (l : List (ℕ × UserProfile)) (uid : ℕ)
    (p : UserProfile) : (setProfile l uid p).lookup uid = some p := by
  induction l with
  | nil => simp [setProfile, List.lookup]
  | cons kv rest ih =>
    obtain ⟨k, q⟩ := kv
    by_cases hk : k = uid
    · subst hk
      simp [setProfile, List.lookup]
    · have hbeq : (uid == k) = false := by
        simp [Ne.symm hk]
      simp [setProfile, hk, List.lookup, hbeq, ih]

theorem lookup_setProfile_other (l : List (ℕ × UserProfile)) (uid v : ℕ)
    (p : UserProfile) (h : v ≠ uid) :
    (setProfile l uid p).lookup v = l.lookup v := by
  induction l with
  | nil =>
    have hbeq : (v == uid) = false := by simp [h]
    simp [setProfile, List.lookup, hbeq]
  | cons kv rest ih =>
    obtain ⟨k, q⟩ := kv
    by_cases hk : k = uid
    · subst hk
      have hbeq : (v == k) = false := by simp [h]
      simp [setProfile, List.lookup, hbeq]
    · simp only [setProfile, if_neg hk]
      rcases hv : (v == k) with _ | _ <;>
        simp [List.lookup, hv, ih]

theorem txnSum_saveProfile (db : DB) (uid v : ℕ) (p : UserProfile) :
    txnSum (saveProfile db uid p) v = txnSum db v := rfl

theorem saveProfile_profiles (db : DB) (uid : ℕ) (p : UserProfile) :
    (saveProfile db uid p).profiles = setProfile db.profiles uid p := rfl

theorem ownedIds_append (ubs1 ubs2 : List UserBadge) (uid : ℕ) :
    ownedIds (ubs1 ++ ubs2) uid = ownedIds ubs1 uid ++ ownedIds ubs2 uid := by
  simp [ownedIds, List.filter_append]

theorem txnSum_append_one (db : DB) (t : PointsTransaction) (v : ℕ) :
    txnSum { db with transactions := db.transactions ++ [t] } v
      = txnSum db v + (if (t.user == v) = true then t.points else 0) := by
  unfold txnSum
  show txnSumList (db.transactions ++ [t]) v = _
  rw [txnSumList_append, txnSumList_single]

/-- One badge-award step preserves the ledger delta: the profile and
transaction sums move together, other users' sums are untouched, and the
profile table, levels and badge membership grow monotonically. -/
theorem award_step_spec (uid : ℕ) (cp : ℤ) (st : SweepState) (b : Badge) :
    (award_badge_step uid cp st b).profile.total_points + txnSum st.db uid
      = st.profile.total_points +
        txnSum (award_badge_step uid cp st b).db uid ∧
    (∀ v, v ≠ uid →
      txnSum (award_badge_step uid cp st b).db v = txnSum st.db v) ∧
    (award_badge_step uid cp st b).db.profiles = st.db.profiles ∧
    (award_badge_step uid cp st b).db.levels = st.db.levels ∧
    (∀ x, x ∈ ownedIds st.db.user_badges uid →
      x ∈ ownedIds (award_badge_step uid cp st b).db.user_badges uid) ∧
    (award_badge_step uid cp st b).profile.current_level
      = st.profile.current_level := by
  unfold award_badge_step
  split
  · exact ⟨by omega, fun v _ => rfl, rfl, rfl, fun x hx => hx, rfl⟩
  · refine ⟨?_, ?_, rfl, rfl, ?_, rfl⟩
    · simp only [txnSum, txnSumList_append, txnSumList_single,
        beq_self_eq_true, if_true]
      omega
    · intro v hv
      have hbeq : ((uid : ℕ) == v) = false := by simp [Ne.symm hv]
      simp only [txnSum, txnSumList_append, txnSumList_single, hbeq]
      simp
    · intro x hx
      dsimp only
      simp only [ownedIds_append]
      exact List.mem_append_left _ hx

/-- The badge-sweep fold preserves the ledger delta and badge-membership
monotonicity. -/
theorem award_fold_spec (uid : ℕ) (cp : ℤ) (l : List Badge) :
    ∀ st : SweepState,
      (l.foldl (award_badge_step uid cp) st).profile.total_points +
          txnSum st.db uid
        = st.profile.total_points +
          txnSum (l.foldl (award_badge_step uid cp) st).db uid ∧
      (∀ v, v ≠ uid →
        txnSum (l.foldl (award_badge_step uid cp) st).db v
          = txnSum st.db v) ∧
      (l.foldl (award_badge_step uid cp) st).db.profiles = st.db.profiles ∧
      (l.foldl (award_badge_step uid cp) st).db.levels = st.db.levels ∧
      (∀ x, x ∈ ownedIds st.db.user_badges uid →
        x ∈ ownedIds (l.foldl (award_badge_step uid cp) st).db.user_badges
          uid) := by
  induction l with
  | nil =>
    intro st
    simp [List.foldl_nil]
  | cons b t ih =>
    intro st
    simp only [List.foldl_cons]
    obtain ⟨hstep1, hstep2, hstep3, hstep4, hstep5, _⟩ :=
      award_step_spec uid cp st b
    obtain ⟨hf1, hf2, hf3, hf4, hf5⟩ := ih (award_badge_step uid cp st b)
    refine ⟨by omega, ?_, hf3.trans hstep3, hf4.trans hstep4, ?_⟩
    · intro v hv
      rw [hf2 v hv, hstep2 v hv]
    · intro x hx
      exact hf5 x (hstep5 x hx)

/-- The level-up step preserves the ledger delta and never touches badge
rows or the profile table. -/
theorem level_step_spec (uid : ℕ) (st : SweepState) :
    (apply_level_up uid st).profile.total_points + txnSum st.db uid
      = st.profile.total_points + txnSum (apply_level_up uid st).db uid ∧
    (∀ v, v ≠ uid →
      txnSum (apply_level_up uid st).db v = txnSum st.db v) ∧
    (apply_level_up uid st).db.profiles = st.db.profiles ∧
    (apply_level_up uid st).db.user_badges = st.db.user_badges := by
  unfold apply_level_up
  split
  · exact ⟨by omega, by simp, by simp, by simp⟩
  · split
    · refine ⟨?_, ?_, by simp, by simp⟩
      · simp only [txnSum, txnSumList_append, txnSumList_single,
          beq_self_eq_true, if_true]
        omega
      · intro v hv
        have hbeq : ((uid : ℕ) == v) = false := by simp [Ne.symm hv]
        simp only [txnSum, txnSumList_append, txnSumList_single, hbeq]
        simp
    · exact ⟨by omega, by simp, by simp, by simp⟩

/-- Combined effect of the badge sweep followed by the level-up step. -/
theorem sweep_level_spec (uid : ℕ) (cp : ℤ) (l : List Badge)
    (st : SweepState) :
    (apply_level_up uid
        (l.foldl (award_badge_step uid cp) st)).profile.total_points +
        txnSum st.db uid
      = st.profile.total_points +
        txnSum (apply_level_up uid
          (l.foldl (award_badge_step uid cp) st)).db uid ∧
    (∀ v, v ≠ uid →
      txnSum (apply_level_up uid
        (l.foldl (award_badge_step uid cp) st)).db v = txnSum st.db v) ∧
    (apply_level_up uid
        (l.foldl (award_badge_step uid cp) st)).db.profiles
      = st.db.profiles := by
  obtain ⟨hf1, hf2, hf3, hf4, _⟩ := award_fold_spec uid cp l st
  obtain ⟨hl1, hl2, hl3, hl4⟩ :=
    level_step_spec uid (l.foldl (award_badge_step uid cp) st)
  refine ⟨by omega, ?_, ?_⟩
  · intro v hv
    rw [hl2 v hv, hf2 v hv]
  · rw [hl3, hf3]

/-- Summary of one `_check_achievements` call: the returned database stores
exactly the returned profile for the user, the user's stored total and
transaction sum move in lockstep, and other users' transactions are
untouched. -/
theorem check_achievements_spec (db : DB) (uid : ℕ) (profile : UserProfile) :
    (check_achievements db uid profile).1.profiles
      = setProfile db.profiles uid (check_achievements db uid profile).2.1 ∧
    (check_achievements db uid profile).2.1.total_points + txnSum db uid
      = profile.total_points +
        txnSum (check_achievements db uid profile).1 uid ∧
    (∀ v, v ≠ uid →
      txnSum (check_achievements db uid profile).1 v = txnSum db v) := by
  obtain ⟨h1, h2, h3⟩ := sweep_level_spec uid profile.total_points
    (badges_available db uid profile.total_points) ⟨db, profile, ⟨[], none, 0⟩⟩
  dsimp only at h1 h2 h3
  unfold check_achievements
  dsimp only
  refine ⟨?_, ?_, ?_⟩
  · rw [saveProfile_profiles, h3]
  · rw [txnSum_saveProfile]
    exact h1
  · intro v hv
    rw [txnSum_saveProfile]
    exact h2 v hv

/-- The stored total of the profile `get_or_create` returns is the user's
`profileTotal`. -/
theorem getD_profile_total (db : DB) (uid : ℕ) :
    ((db.profiles.lookup uid).getD newProfile).total_points
      = profileTotal db uid := by
  unfold profileTotal
  cases db.profiles.lookup uid <;> rfl

/-- Granting one transaction to a user and then running the achievement
sweep preserves ledger conservation, provided the saved in-memory profile
total already accounts for the new transaction. -/
theorem conserved_grant (db : DB) (uid : ℕ) (pr : UserProfile)
    (t : PointsTransaction) (htu : t.user = uid)
    (htot : pr.total_points = profileTotal db uid + t.points)
    (h : conserved db) :
    conserved (check_achievements
      { saveProfile db uid pr with
        transactions := (saveProfile db uid pr).transactions ++ [t] }
      uid pr).1 := by
  set db2 : DB :=
    { saveProfile db uid pr with
      transactions := (saveProfile db uid pr).transactions ++ [t] } with hdb2
  have hdb2t : db2.transactions = db.transactions ++ [t] := rfl
  have hdb2p : db2.profiles = setProfile db.profiles uid pr := rfl
  have htxn2 : txnSum db2 uid = txnSum db uid + t.points := by
    unfold txnSum
    rw [hdb2t, txnSumList_append, txnSumList_single, htu]
    simp
  have htxn2v : ∀ v, v ≠ uid → txnSum db2 v = txnSum db v := by
    intro v hv
    have hbeq : (t.user == v) = false := by
      rw [htu]
      simp [Ne.symm hv]
    unfold txnSum
    rw [hdb2t, txnSumList_append, txnSumList_single, hbeq]
    simp
  obtain ⟨hs1, hs2, hs3⟩ := check_achievements_spec db2 uid pr
  intro v
  by_cases hv : v = uid
  · subst hv
    have hlook : profileTotal (check_achievements db2 v pr).1 v
        = (check_achievements db2 v pr).2.1.total_points := by
      unfold profileTotal
      rw [hs1, lookup_setProfile_self]
    rw [hlook]
    have hc := h v
    omega
  · have hlook : profileTotal (check_achievements db2 uid pr).1 v
        = profileTotal db v := by
      unfold profileTotal
      rw [hs1, lookup_setProfile_other _ _ _ _ hv, hdb2p,
        lookup_setProfile_other _ _ _ _ hv]
    rw [hlook, hs3 v hv, htxn2v v hv]
    exact h v

/-- The in-memory profile written by `update_user_progress` carries the old
stored total plus the granted points. -/
theorem profile3_total (db : DB) (p : UpdateParams) :
    (let profile0 := (db.profiles.lookup p.user_id).getD newProfile
     let profile1 := { profile0 with
       total_points := profile0.total_points + p.points_to_add }
     let profile2 :=
       if p.increment_challenges then
         { profile1 with
           challenges_completed := profile1.challenges_completed + 1 }
       else profile1
     if p.increment_quizzes then
       { profile2 with quizzes_completed := profile2.quizzes_completed + 1 }
     else profile2).total_points
      = profileTotal db p.user_id + p.points_to_add := by
  rcases hic : p.increment_challenges <;>
    rcases hiq : p.increment_quizzes <;>
      simp [hic, hiq, getD_profile_total]

/-- One `update_user_progress` call preserves ledger conservation,
whatever its outcome (success, unknown user, injected fault). -/
theorem conserved_update (db : DB) (p : UpdateParams) (h : conserved db) :
    conserved (update_user_progress db p).1 := by
  unfold update_user_progress update_body
  by_cases huser : (db.users.contains p.user_id) = false
  · rw [if_pos huser]
    exact h
  · rw [if_neg huser]
    cases hf1 : raiseAt FaultSite.afterProfileSave p.fault with
    | error e => cases e <;> exact h
    | ok u1 =>
      cases hf2 : raiseAt FaultSite.afterTransaction p.fault with
      | error e => cases e <;> exact h
      | ok u2 =>
        cases hf3 : raiseAt FaultSite.afterAchievements p.fault with
        | error e => cases e <;> exact h
        | ok u3 =>
          exact conserved_grant db p.user_id _ _ rfl (profile3_total db p) h

/-- A sequence of updates preserves ledger conservation. -/
theorem conserved_run_ops (db : DB) (ops : List UpdateParams)
    (h : conserved db) : conserved (run_ops db ops) := by
  induction ops generalizing db with
  | nil => exact h
  | cons p t ih => exact ih _ (conserved_update db p h)

/-- C4: ledger conservation — starting from system start, after any
sequence of progress-update operations (point grants with their badge and
level-up bonus cascades, including failed or faulted updates), every user's
`UserProfile.total_points` equals the sum of their `PointsTransaction`
rows. -/
theorem C4_ledger_conservation (users : List ℕ) (badges : List Badge)
    (levels : List Level) (ops : List UpdateParams) :
    conserved (run_ops (initialDB users badges levels) ops) :=
  conserved_run_ops (initialDB users badges levels) ops (fun _ => rfl)

/-- C8: an unknown user id yields the structured "User not found" failure
with the database untouched, and every failing update — unknown user or an
unexpected error at any point inside the transaction — leaves the database
exactly as it was: no partial point grant persists. -/
theorem C8_error_rollback (db : DB) (p : UpdateParams) :
    ((db.users.contains p.user_id) = false →
      update_user_progress db p =
        (db, { success := false, error := some "User not found",
               new_total_points := none })) ∧
    ((update_user_progress db p).2.success = false →
      (update_user_progress db p).1 = db) := by
  constructor
  · intro huser
    unfold update_user_progress update_body
    rw [if_pos huser]
  · intro hfail
    unfold update_user_progress at hfail ⊢
    cases hbody : update_body db p with
    | ok res =>
      obtain ⟨d3, pr, ach⟩ := res
      rw [hbody] at hfail
      simp at hfail
    | error e => cases e <;> rfl

/-- C8, witness: an update for the unknown user 7 fails with "User not
found" leaving the database untouched, and an update for user 1 hit by an
unexpected error after the transaction write is rolled back whole. -/
theorem C8_error_rollback_witness :
    update_user_progress ⟨[1], [], [], [], [], []⟩
        ⟨7, 10, "quiz_completion", "quiz", none, none, false, true, none⟩ =
      (⟨[1], [], [], [], [], []⟩,
       { success := false, error := some "User not found",
         new_total_points := none }) ∧
    (update_user_progress ⟨[1], [], [], [], [], []⟩
        ⟨1, 10, "quiz_completion", "quiz", none, none, false, true,
         some FaultSite.afterTransaction⟩).1 = ⟨[1], [], [], [], [], []⟩ :=
  ⟨(C8_error_rollback ⟨[1], [], [], [], [], []⟩
      ⟨7, 10, "quiz_completion", "quiz", none, none, false, true, none⟩).1
      (by decide),
   (C8_error_rollback ⟨[1], [], [], [], [], []⟩
      ⟨1, 10, "quiz_completion", "quiz", none, none, false, true,
       some FaultSite.afterTransaction⟩).2 (by decide)⟩

/-! ## The achievement sweep is a single pass (C3) -/

theorem ownedBadgeIds_saveProfile (db : DB) (uid v : ℕ) (p : UserProfile) :
    ownedBadgeIds (saveProfile db uid p) v = ownedBadgeIds db v := rfl

/-- Every non-special badge in the sweep's work list ends up owned. -/
theorem award_fold_awards (uid : ℕ) (cp : ℤ) (l : List Badge) :
    ∀ (st : SweepState) (b : Badge), b ∈ l → b.is_special = false →
      b.id ∈ ownedIds
        (l.foldl (award_badge_step uid cp) st).db.user_badges uid := by
  induction l with
  | nil =>
    intro st b hb _
    exact absurd hb (List.not_mem_nil b)
  | cons hd tl ih =>
    intro st b hb hs
    rw [List.foldl_cons]
    rcases List.mem_cons.mp hb with hhd | htl
    · subst hhd
      have hstep : b.id ∈
          ownedIds (award_badge_step uid cp st b).db.user_badges uid := by
        have hcond : (b.is_special &&
            ! check_special_badge_eligibility st.db uid st.profile)
              = false := by
          rw [hs]
          rfl
        unfold award_badge_step
        rw [hcond]
        simp only [Bool.false_eq_true, if_false]
        rw [ownedIds_append]
        refine List.mem_append_right _ ?_
        simp [ownedIds]
      exact (award_fold_spec uid cp tl
        (award_badge_step uid cp st b)).2.2.2.2 b.id hstep
    · exact ih (award_badge_step uid cp st hd) b htl hs

/-- C3, amended: the sweep is a single pass over the badges eligible at
entry — when it returns, every non-special badge whose threshold is at or
below the user's total at entry to the sweep is owned; a badge whose
threshold is only crossed by badge or level-up bonuses granted during the
same sweep may remain unawarded (see the counterexample). -/
theorem C3_single_pass_amended (db : DB) (uid : ℕ) (profile : UserProfile)
    (b : Badge) (hb : b ∈ db.badges) (hs : b.is_special = false)
    (ht : b.points_required ≤ profile.total_points) :
    b.id ∈ ownedBadgeIds (check_achievements db uid profile).1 uid := by
  unfold check_achievements
  dsimp only
  rw [ownedBadgeIds_saveProfile]
  show b.id ∈ ownedIds _ uid
  rw [(level_step_spec uid
    ((badges_available db uid profile.total_points).foldl
      (award_badge_step uid profile.total_points)
      ⟨db, profile, ⟨[], none, 0⟩⟩)).2.2.2]
  by_cases hown : b.id ∈ ownedBadgeIds db uid
  · exact (award_fold_spec uid profile.total_points
      (badges_available db uid profile.total_points)
      ⟨db, profile, ⟨[], none, 0⟩⟩).2.2.2.2 b.id hown
  · have hmem : b ∈ badges_available db uid profile.total_points := by
      unfold badges_available
      rw [List.mem_insertionSort, List.mem_filter]
      refine ⟨hb, ?_⟩
      simp [ht, ownedBadgeIds]
      exact hown
    exact award_fold_awards uid profile.total_points
      (badges_available db uid profile.total_points)
      ⟨db, profile, ⟨[], none, 0⟩⟩ b hmem hs

/-- C3, witness for the amended theorem: in the cascade database, the
250-point badge (threshold ≤ the 260-point entry total) is owned after the
sweep. -/
theorem C3_single_pass_amended_witness :
    (1 : ℕ) ∈ ownedBadgeIds
      (check_achievements cascadeDB 1 ⟨260, none, 1, 0⟩).1 1 :=
  C3_single_pass_amended cascadeDB 1 ⟨260, none, 1, 0⟩ ⟨1, "Rat", 250, false⟩
    (by decide) rfl (by decide)

/-- C3, counterexample: granting 250 points to user 1 (total 10) awards the
250-point badge, whose +50 bonus lifts the final total to 310, past the
300-point badge's threshold — yet that badge is not awarded in the same
sweep, so a badge with threshold ≤ the final total remains unawarded. -/
theorem C3_cascade_counterexample :
    (update_user_progress cascadeDB cascadeParams).2.success = true ∧
    profileTotal (update_user_progress cascadeDB cascadeParams).1 1 = 310 ∧
    (⟨2, "Ox", 300, false⟩ : Badge)
      ∈ (update_user_progress cascadeDB cascadeParams).1.badges ∧
    (2 : ℕ) ∉
      ownedBadgeIds (update_user_progress cascadeDB cascadeParams).1 1 := by
  refine ⟨by decide, by decide, by decide, by decide⟩

end NatureQuest
